import Mathlib

/-!
# Verification of the `execute-python` tool handler

Shallow embedding of `handlePythonExecution` from `main.go`.  The handler is
sequential glue around the operating system: it reads the tool arguments,
stages the code in a temporary directory, starts `docker`, and maps the outcome
to a tool result.  The embedding passes an explicit `World` (a filesystem and
the list of system calls made so far); the answers of the operating system that
the program cannot determine (whether a directory can be created, what the
container prints, ...) come from an `Env` that every theorem quantifies over.
-/

namespace PythonExec

/-! ## Dynamic values and the request -/

/-- Go values of static type `any`, in the shapes JSON decoding produces. -/
inductive GoAny where
  | nil
  | bool (b : Bool)
  | float64 (bits : Nat)
  | string (s : String)
  | slice (xs : List GoAny)
  | map (kvs : List (String × GoAny))

/-- Type assertion `v.(map[string]any)` in its comma-ok form. -/
def GoAny.asMap : GoAny → Option (List (String × GoAny))
  | .map kvs => some kvs
  | _ => none

/-- Type assertion `v.(string)` in its comma-ok form. -/
def GoAny.asString : GoAny → Option String
  | .string s => some s
  | _ => none

/-- Index expression `m[k]` on a `map[string]any`: the stored value, or the nil
interface when the key is absent. -/
def GoAny.index (m : List (String × GoAny)) (k : String) : GoAny :=
  match m.lookup k with
  | some v => v
  | none => .nil

/-- The `mcp.TextContent` content item. -/
structure TextContent where
  type : String
  text : String
  deriving DecidableEq, Repr

/-- The `mcp.CallToolResult` value a handler returns. -/
structure CallToolResult where
  content : List TextContent
  isError : Bool
  deriving DecidableEq, Repr

/-- Parameters of a tool call; `arguments` is the undecoded `any`. -/
structure CallToolParams where
  name : String
  arguments : GoAny

/-- The `mcp.CallToolRequest` value a handler receives. -/
structure CallToolRequest where
  params : CallToolParams

/-- Library constructor `mcp.NewToolResultText`. -/
def mcp.NewToolResultText (text : String) : CallToolResult :=
  CallToolResult.mk [TextContent.mk "text" text] false

/-- Library constructor `mcp.NewToolResultError`. -/
def mcp.NewToolResultError (text : String) : CallToolResult :=
  CallToolResult.mk [TextContent.mk "text" text] true

/-! ## Strings and paths -/

/-- Pieces of a character list between occurrences of `sep`; there is always
one more piece than there are separators. -/
def splitOnChar (sep : Char) : List Char → List (List Char)
  | [] => [[]]
  | c :: cs =>
    if c = sep then [] :: splitOnChar sep cs
    else
      match splitOnChar sep cs with
      | [] => [[c]]
      | piece :: pieces => (c :: piece) :: pieces

/-- Library function `strings.Split` for a one-character separator, which is
how the handler calls it (`strings.Split(modulesStr, ",")`). -/
def strings.Split (s : String) (sep : Char) : List String :=
  (splitOnChar sep s.data).map String.mk

/-- Library function `strings.Join`: the elements with `sep` between each two
neighbours. -/
def strings.Join : List String → String → String
  | [], _ => ""
  | [a], _ => a
  | a :: b :: rest, sep => a ++ sep ++ strings.Join (b :: rest) sep

/-- Element pass of `path.Clean`. `acc` holds the kept elements, last one first.
Empty elements and `.` are dropped; `..` removes the element before it, is kept
at the start of an unrooted path, and is dropped at the start of a rooted one. -/
def cleanElems (rooted : Bool) : List (List Char) → List (List Char) → List (List Char)
  | acc, [] => acc.reverse
  | acc, e :: es =>
    if e = [] ∨ e = ['.'] then cleanElems rooted acc es
    else if e = ['.', '.'] then
      match acc with
      | [] => if rooted then cleanElems rooted [] es else cleanElems rooted [e] es
      | top :: below =>
        if top = ['.', '.'] then cleanElems rooted (e :: acc) es
        else cleanElems rooted below es
    else cleanElems rooted (e :: acc) es

/-- Library function `path.Clean`: the shortest path name equivalent to `p` by
purely lexical processing. -/
def path.Clean (p : String) : String :=
  if p = "" then "."
  else
    let rooted := p.data.head? = some '/'
    let body := strings.Join ((cleanElems rooted [] (splitOnChar '/' p.data)).map String.mk) "/"
    if rooted then "/" ++ body
    else if body = "" then "."
    else body

/-- Library function `path.Join`: joins the elements with slashes, skipping
leading empty elements, and cleans the result; all-empty input gives the empty
string. -/
def path.Join (elem : List String) : String :=
  if (elem.map String.length).sum = 0 then ""
  else
    path.Clean
      (elem.foldl
        (fun buf e =>
          if buf ≠ "" ∨ e ≠ "" then (if buf ≠ "" then buf ++ "/" else buf) ++ e else buf)
        "")

/-! ## Filesystem, system calls and the environment -/

/-- Explicit filesystem state: the directories and the regular files with
their contents, keyed by cleaned path. -/
structure FS where
  dirs : List String
  files : List (String × String)

/-- Whether `q` names `p` itself or something below the directory `p`
(both cleaned). -/
def FS.within (p q : String) : Bool :=
  q == p || p == "/" || (p ++ "/").data.isPrefixOf q.data

/-- Whether something exists at path `p`. -/
def FS.pathExists (fs : FS) (p : String) : Bool :=
  fs.dirs.contains (path.Clean p) || (fs.files.map Prod.fst).contains (path.Clean p)

/-- Content of the regular file at `p`, if there is one. -/
def FS.readFile (fs : FS) (p : String) : Option String :=
  fs.files.lookup (path.Clean p)

/-- Create the directory `p`. -/
def FS.mkdir (fs : FS) (p : String) : FS :=
  FS.mk (path.Clean p :: fs.dirs.filter (fun q => q != path.Clean p)) fs.files

/-- Create or truncate the file `p` and give it the content `data`. -/
def FS.writeFile (fs : FS) (p data : String) : FS :=
  FS.mk fs.dirs ((path.Clean p, data) :: fs.files.filter (fun e => e.1 != path.Clean p))

/-- Remove `p` and everything below it. -/
def FS.removeAll (fs : FS) (p : String) : FS :=
  FS.mk (fs.dirs.filter (fun q => !FS.within (path.Clean p) q))
    (fs.files.filter (fun e => !FS.within (path.Clean p) e.1))

/-- Remove what can be removed of `p` and everything below it, when the paths
`kept` resist removal: an entry stays when it is one of them or lies above one
of them. -/
def FS.removeAllBut (fs : FS) (p : String) (kept : List String) : FS :=
  FS.mk
    (fs.dirs.filter (fun q =>
      !FS.within (path.Clean p) q || kept.any (fun k => FS.within q (path.Clean k))))
    (fs.files.filter (fun e =>
      !FS.within (path.Clean p) e.1 || kept.any (fun k => FS.within e.1 (path.Clean k))))

/-- The system calls the handler can make, with their arguments. -/
inductive SysCall where
  | mkdirTemp (dir pattern : String)
  | writeFile (name data : String) (perm : Nat)
  | command (name : String) (args : List String)
  | removeAll (path : String)
  deriving DecidableEq, Repr

/-- State threaded through the handler: the filesystem and the system calls
made so far, oldest first. -/
structure World where
  fs : FS
  calls : List SysCall

/-- How a started program ended: it ran and exited with a status and its two
captured streams, or it could not be run at all. -/
inductive ProcessResult where
  | exited (code : Int) (stdout stderr : String)
  | failed (err : String)

/-- The error value `cmd.Output` returns next to the captured output. -/
inductive ExecError where
  | exitError (exitCode : Int) (stderr : String)
  | other (msg : String)

/-- What the operating system answers. `mkdirTemp` gives the error text or the
name of the new directory; `writeFile` gives nothing on success, or the error
text and whatever content the failed write left in the file; `run` gives the
fate of the started program and what it did to the filesystem; `removeAll`
gives nothing on success, or the first error met and the paths that could not
be removed. -/
structure Env where
  mkdirTemp : String → String → FS → Except String String
  writeFile : String → String → Nat → FS → Option (String × Option String)
  run : String → List String → FS → ProcessResult × FS
  removeAll : String → FS → Option (String × List String)

/-- Library function `os.MkdirTemp`. -/
def os.MkdirTemp (env : Env) (dir pattern : String) (w : World) :
    Except String String × World :=
  match env.mkdirTemp dir pattern w.fs with
  | .error err => (.error err, World.mk w.fs (w.calls ++ [SysCall.mkdirTemp dir pattern]))
  | .ok name => (.ok name, World.mk (w.fs.mkdir name) (w.calls ++ [SysCall.mkdirTemp dir pattern]))

/-- Library function `os.WriteFile`; the result is the error, nil on success. -/
def os.WriteFile (env : Env) (name data : String) (perm : Nat) (w : World) :
    Option String × World :=
  match env.writeFile name data perm w.fs with
  | none => (none, World.mk (w.fs.writeFile name data) (w.calls ++ [SysCall.writeFile name data perm]))
  | some (err, none) => (some err, World.mk w.fs (w.calls ++ [SysCall.writeFile name data perm]))
  | some (err, some left) =>
    (some err, World.mk (w.fs.writeFile name left) (w.calls ++ [SysCall.writeFile name data perm]))

/-- Library function `os.RemoveAll`: it removes everything it can and returns
the first error it meets, nil when the path is gone. -/
def os.RemoveAll (env : Env) (p : String) (w : World) : Option String × World :=
  match env.removeAll p w.fs with
  | none => (none, World.mk (w.fs.removeAll p) (w.calls ++ [SysCall.removeAll p]))
  | some (err, kept) =>
    (some err, World.mk (w.fs.removeAllBut p kept) (w.calls ++ [SysCall.removeAll p]))

/-- Library call `exec.Command(name, args...).Output()`: the captured standard
output and the error, which is an exit error carrying the status and the
captured standard error when the program exits unsuccessfully. -/
def exec.Output (env : Env) (name : String) (args : List String) (w : World) :
    (String × Option ExecError) × World :=
  match env.run name args w.fs with
  | (.exited code stdout stderr, fs) =>
    if code = 0 then ((stdout, none), World.mk fs (w.calls ++ [SysCall.command name args]))
    else
      ((stdout, some (ExecError.exitError code stderr)),
        World.mk fs (w.calls ++ [SysCall.command name args]))
  | (.failed err, fs) =>
    (("", some (ExecError.other err)), World.mk fs (w.calls ++ [SysCall.command name args]))

/-! ## The handler -/

/-- Return value of the handler: the result pointer and the Go error, either of
which may be nil. -/
abbrev HandlerReturn := Option CallToolResult × Option String

/-- The part of `handlePythonExecution` that follows `defer os.RemoveAll(tmpDir)`
(lines 78 to 112 of `main.go`). -/
def handlePythonExecution.staged (env : Env) (code : String) (modules : List String)
    (tmpDir : String) (w : World) : HandlerReturn × World :=
  match os.WriteFile env (path.Join [tmpDir, "script.py"]) code 0o644 w with
  | (some err, w1) =>
    ((some (mcp.NewToolResultError ("Failed to write script to temporary directory: " ++ err)),
      none), w1)
  | (none, w1) =>
    let cmdArgs : List String :=
      ["run", "--rm", "-v", tmpDir ++ ":/app", "mcr.microsoft.com/playwright/python:v1.49.1-noble"]
    let shArgs : List String := []
    let shArgs : List String :=
      if modules.length > 0 then
        ((shArgs ++ ["python", "-m", "pip", "install", "--quiet"]) ++ modules) ++ ["&&"]
      else shArgs
    let shArgs : List String := shArgs ++ ["python", path.Join ["app", "script.py"]]
    let cmdArgs : List String := cmdArgs ++ ["sh", "-c", strings.Join shArgs " "]
    match exec.Output env "docker" cmdArgs w1 with
    | ((_, some (ExecError.exitError exitCode stderr)), w2) =>
      ((some (mcp.NewToolResultError
        ("Python execution failed with code " ++ toString exitCode ++ ": " ++ stderr)), none), w2)
    | ((_, some (ExecError.other msg)), w2) =>
      ((some (mcp.NewToolResultError ("Python execution failed: " ++ msg)), none), w2)
    | ((out, none), w2) => ((some (mcp.NewToolResultText out), none), w2)

/-- The tool handler `handlePythonExecution` of `main.go`. The deferred
`os.RemoveAll(tmpDir)` runs after the rest of the body has produced the return
value, and the error it returns is discarded. -/
def handlePythonExecution (env : Env) (request : CallToolRequest) (w : World) :
    HandlerReturn × World :=
  match request.params.arguments.asMap with
  | none => ((some (mcp.NewToolResultError "Invalid arguments"), none), w)
  | some args =>
    match (GoAny.index args "code").asString with
    | none => ((some (mcp.NewToolResultError "Missing or invalid code parameter"), none), w)
    | some code =>
      let modules : List String :=
        match (GoAny.index args "modules").asString with
        | some modulesStr => if modulesStr ≠ "" then strings.Split modulesStr ',' else []
        | none => []
      match os.MkdirTemp env "" "python_repl" w with
      | (.error err, w1) =>
        ((some (mcp.NewToolResultError ("Failed to create temporary directory: " ++ err)), none),
          w1)
      | (.ok tmpDir, w1) =>
        let ret := handlePythonExecution.staged env code modules tmpDir w1
        (ret.1, (os.RemoveAll env tmpDir ret.2).2)

/-! ## Vocabulary for the statements -/

/-- The module list of lines 67 to 70, as a function of the argument map. -/
def requestedModules (args : List (String × GoAny)) : List String :=
  match (GoAny.index args "modules").asString with
  | some modulesStr => if modulesStr ≠ "" then strings.Split modulesStr ',' else []
  | none => []

/-- The shell command of lines 91 to 101, as a function of the module list. -/
def shellCommand (modules : List String) : String :=
  strings.Join
    ((if modules.length > 0 then
        (([] ++ ["python", "-m", "pip", "install", "--quiet"]) ++ modules) ++ ["&&"]
      else []) ++ ["python", path.Join ["app", "script.py"]])
    " "

/-- The argument vector of lines 84 to 101 that `docker` is started with. -/
def dockerArgs (tmpDir : String) (modules : List String) : List String :=
  ["run", "--rm", "-v", tmpDir ++ ":/app", "mcr.microsoft.com/playwright/python:v1.49.1-noble"]
    ++ ["sh", "-c", shellCommand modules]

/-- The return value of lines 105 to 112, as a function of what `cmd.Output`
returned. -/
def outputReturn : String × Option ExecError → HandlerReturn
  | (_, some (ExecError.exitError exitCode stderr)) =>
    (some (mcp.NewToolResultError
      ("Python execution failed with code " ++ toString exitCode ++ ": " ++ stderr)), none)
  | (_, some (ExecError.other msg)) =>
    (some (mcp.NewToolResultError ("Python execution failed: " ++ msg)), none)
  | (out, none) => (some (mcp.NewToolResultText out), none)

/-- The world in which the container is started: the staging directory exists,
the script has been written, and both calls are on record. -/
def stagedWorld (w : World) (tmpDir code : String) : World :=
  World.mk ((w.fs.mkdir tmpDir).writeFile (path.Join [tmpDir, "script.py"]) code)
    ((w.calls ++ [SysCall.mkdirTemp "" "python_repl"])
      ++ [SysCall.writeFile (path.Join [tmpDir, "script.py"]) code 0o644])

/-- The request reaches execution: its arguments are the map `args` with the
string `code`, the temporary directory `tmpDir` could be created, and the
script could be written into it. -/
def ReachesExecution (env : Env) (request : CallToolRequest) (w : World)
    (args : List (String × GoAny)) (code tmpDir : String) : Prop :=
  request.params.arguments = GoAny.map args ∧
  GoAny.index args "code" = GoAny.string code ∧
  env.mkdirTemp "" "python_repl" w.fs = Except.ok tmpDir ∧
  env.writeFile (path.Join [tmpDir, "script.py"]) code 0o644 (w.fs.mkdir tmpDir) = none

/-- What the container run does when the request reaches execution: the fate
of the `docker` process and the filesystem it leaves. -/
def containerRun (env : Env) (w : World) (args : List (String × GoAny))
    (code tmpDir : String) : ProcessResult × FS :=
  env.run "docker" (dockerArgs tmpDir (requestedModules args)) (stagedWorld w tmpDir code).fs

/-- The programs started among a list of system calls, with their arguments. -/
def invocations : List SysCall → List (String × List String)
  | [] => []
  | SysCall.command name args :: rest => (name, args) :: invocations rest
  | _ :: rest => invocations rest

/-! ## The shell inside the container

`docker` hands the last argument to `sh -c`. The part of the shell command
language that the handler can produce from well-behaved input is modelled:
words of plain characters separated by blanks, the operators `&&`, `||` and
`;`, and comments. A text that uses anything else (quoting, expansions,
redirections, pipes, ...) gets no answer from the model. -/

/-- Tokens of the shell command language, as far as it is modelled; `other`
stands for a character outside the model. -/
inductive ShToken where
  | word (w : String)
  | andIf
  | orIf
  | semi
  | other (c : Char)
  deriving DecidableEq, Repr

/-- What the tokenizer has read and not yet turned into a token: nothing, the
characters of a word (last one first), one `&`, one `|`, or a comment. -/
inductive ShPending where
  | none
  | word (rev : List Char)
  | amp
  | bar
  | comment

/-- Characters that stand for themselves in a shell word. -/
def shPlain (c : Char) : Bool :=
  c.isAlphanum || ['-', '_', '.', '/', ':', '+', ',', '@', '%', '='].contains c

/-- Tokens the pending input amounts to at the end of the text. -/
def closePending : ShPending → List ShToken
  | .word rev => [ShToken.word (String.mk rev.reverse)]
  | .amp => [ShToken.other '&']
  | .bar => [ShToken.other '|']
  | _ => []

/-- Reading the character `c` with nothing pending: a plain character starts a
word, `#` starts a comment, a blank is skipped, `;` and the newline end a
command. -/
def shFresh (c : Char) : List ShToken × ShPending :=
  if shPlain c then ([], ShPending.word [c])
  else if c = '#' then ([], ShPending.comment)
  else if c = '&' then ([], ShPending.amp)
  else if c = '|' then ([], ShPending.bar)
  else if c = ' ' ∨ c = '\t' then ([], ShPending.none)
  else if c = ';' ∨ c = '\n' then ([ShToken.semi], ShPending.none)
  else ([ShToken.other c], ShPending.none)

/-- One step of the tokenizer: the tokens completed by the character `c` and
what is pending after it. A comment runs to the end of the line; inside a word
`#` is an ordinary character. -/
def shLexStep : ShPending → Char → List ShToken × ShPending
  | .none, c => shFresh c
  | .comment, c => if c = '\n' then ([ShToken.semi], ShPending.none) else ([], ShPending.comment)
  | .word rev, c =>
    if shPlain c || c == '#' then ([], ShPending.word (c :: rev))
    else (ShToken.word (String.mk rev.reverse) :: (shFresh c).1, (shFresh c).2)
  | .amp, c =>
    if c = '&' then ([ShToken.andIf], ShPending.none)
    else (ShToken.other '&' :: (shFresh c).1, (shFresh c).2)
  | .bar, c =>
    if c = '|' then ([ShToken.orIf], ShPending.none)
    else (ShToken.other '|' :: (shFresh c).1, (shFresh c).2)

/-- Tokens of a command text. -/
def shLex : ShPending → List Char → List ShToken
  | p, [] => closePending p
  | p, c :: cs => (shLexStep p c).1 ++ shLex (shLexStep p c).2 cs

/-- Whether a command exits with status zero, given the commands run before
it. -/
abbrev ShOracle := List (List String) → List String → Bool

/-- State of the shell while it runs a command text: the commands run so far,
whether the last one succeeded, whether the command being read is skipped
(it follows `&&` after a failure or `||` after a success), whether an operator
still waits for its right-hand command, and the words of the command being
read. -/
structure ShState where
  trace : List (List String)
  status : Bool
  skip : Bool
  pending : Bool
  cur : List String
  deriving DecidableEq, Repr

/-- Reserved words, which do not name a command. -/
def shReserved (w : String) : Bool :=
  ["!", "\x7b", "\x7d", "case", "do", "done", "elif", "else", "esac", "fi", "for", "if", "in", "then",
    "until", "while"].contains w

/-- End of a simple command: unless it is skipped it is run, which records it
and sets the status. Empty commands, reserved words and assignments are outside
the model. -/
def shFinish (ok : ShOracle) (st : ShState) : Option ShState :=
  match st.cur with
  | [] => none
  | name :: args =>
    if shReserved name || name.data.contains '=' then none
    else if st.skip then some (ShState.mk st.trace st.status false false [])
    else some (ShState.mk (st.trace ++ [name :: args]) (ok st.trace (name :: args)) false false [])

/-- Effect of one token. `&&` and `||` have equal precedence and associate to
the left: the next command is skipped according to the status so far. -/
def shStep (ok : ShOracle) (st : ShState) : ShToken → Option ShState
  | .word w => some (ShState.mk st.trace st.status st.skip st.pending (st.cur ++ [w]))
  | .andIf =>
    match shFinish ok st with
    | some s => some (ShState.mk s.trace s.status (!s.status) true [])
    | none => none
  | .orIf =>
    match shFinish ok st with
    | some s => some (ShState.mk s.trace s.status s.status true [])
    | none => none
  | .semi =>
    match shFinish ok st with
    | some s => some (ShState.mk s.trace s.status false false [])
    | none => none
  | .other _ => none

/-- Running a token list from a state. -/
def shExec (ok : ShOracle) : ShState → List ShToken → Option ShState
  | st, [] => if st.cur = [] then (if st.pending then none else some st) else shFinish ok st
  | st, t :: ts =>
    match shStep ok st t with
    | some s => shExec ok s ts
    | none => none

/-- The commands `sh -c text` runs, in order, each with its argument vector;
no answer when the text leaves the modelled part of the language. -/
def shRun (ok : ShOracle) (text : String) : Option (List (List String)) :=
  match shExec ok (ShState.mk [] true false false []) (shLex ShPending.none text.data) with
  | some st => some st.trace
  | none => none

/-- A word the shell takes as it stands: not empty and made of plain
characters. -/
def shSafeWord (w : String) : Bool :=
  !w.data.isEmpty && w.data.all shPlain

/-! ## Concrete requests and environments -/

/-- A request carrying the given arguments. -/
def requestOf (arguments : GoAny) : CallToolRequest :=
  CallToolRequest.mk (CallToolParams.mk "execute-python" arguments)

/-- An initial world with an empty temporary directory. -/
def emptyWorld : World := World.mk (FS.mk ["/tmp"] []) []

/-- An environment in which staging succeeds and the container ends as given. -/
def envWith (result : ProcessResult) : Env :=
  Env.mk (fun _ _ _ => Except.ok "/tmp/python_repl1") (fun _ _ _ _ => none)
    (fun _ _ fs => (result, fs)) (fun _ _ => none)

/-- An environment in which no temporary directory can be created. -/
def envNoTemp : Env :=
  Env.mk (fun _ _ _ => Except.error "mkdir /tmp/python_repl1: no space left on device")
    (fun _ _ _ _ => none) (fun _ _ fs => (ProcessResult.exited 0 "" "", fs)) (fun _ _ => none)

/-- An environment in which the script cannot be written. -/
def envNoWrite : Env :=
  Env.mk (fun _ _ _ => Except.ok "/tmp/python_repl1")
    (fun _ _ _ _ => some ("write /tmp/python_repl1/script.py: no space left on device", some ""))
    (fun _ _ fs => (ProcessResult.exited 0 "" "", fs)) (fun _ _ => none)

/-- An environment in which the script, run as root inside the container,
leaves `out/result.txt` in the mounted directory, and the handler, not being
root, cannot remove that file afterwards. -/
def envLeftover : Env :=
  Env.mk (fun _ _ _ => Except.ok "/tmp/python_repl1") (fun _ _ _ _ => none)
    (fun _ _ fs =>
      (ProcessResult.exited 0 "done\n" "",
        (fs.mkdir "/tmp/python_repl1/out").writeFile "/tmp/python_repl1/out/result.txt" "1"))
    (fun _ _ =>
      some ("unlinkat /tmp/python_repl1/out/result.txt: permission denied",
        ["/tmp/python_repl1/out/result.txt"]))

/-- A shell in which the package installer fails and every other command
succeeds. -/
def installFails : ShOracle :=
  fun _ argv => !(argv.take 4 == ["python", "-m", "pip", "install"])

/-- A shell in which every command succeeds. -/
def allSucceed : ShOracle := fun _ _ => true

/-! ## Sanity checks of the library models -/

example : strings.Split "a,b,c" ',' = ["a", "b", "c"] := by decide
example : strings.Split "a,,b," ',' = ["a", "", "b", ""] := by decide
example : strings.Split "abc" ',' = ["abc"] := by decide
example : path.Join ["app", "script.py"] = "app/script.py" := by decide
example : path.Join ["/tmp/python_repl42", "script.py"] = "/tmp/python_repl42/script.py" := by
  decide
example : path.Clean "a//b/./c/.." = "a/b" := by decide
example : path.Clean "/../a/../.." = "/" := by decide
example : path.Clean "../../a" = "../../a" := by decide
example : path.Join ["/", "app/script.py"] = "/app/script.py" := by decide
example : shRun allSucceed "a && b || c; d" = some [["a"], ["b"], ["d"]] := by decide
example : shRun installFails "python -m pip install x || c && d" =
    some [["python", "-m", "pip", "install", "x"], ["c"], ["d"]] := by decide
example : shRun installFails "python -m pip install --quiet a && python app/script.py" =
    some [["python", "-m", "pip", "install", "--quiet", "a"]] := by decide
example : shRun allSucceed "a b#c # d" = some [["a", "b#c"]] := by decide
example : shRun allSucceed "a && $x" = none := by decide
example : shRun allSucceed "a &&" = none := by decide
example : shRun allSucceed "if a" = none := by decide

/-! ## Shared lemmas -/

theorem handle_notMap (env : Env) (request : CallToolRequest) (w : World)
    (h : ∀ kvs, request.params.arguments ≠ GoAny.map kvs) :
    handlePythonExecution env request w =
      ((some (mcp.NewToolResultError "Invalid arguments"), none), w) := by
  unfold handlePythonExecution
  cases hq : request.params.arguments <;> simp [GoAny.asMap]
  exact absurd hq (h _)

theorem handle_noCode (env : Env) (request : CallToolRequest) (w : World)
    (args : List (String × GoAny))
    (hargs : request.params.arguments = GoAny.map args)
    (hcode : ∀ s, GoAny.index args "code" ≠ GoAny.string s) :
    handlePythonExecution env request w =
      ((some (mcp.NewToolResultError "Missing or invalid code parameter"), none), w) := by
  unfold handlePythonExecution
  simp only [hargs, GoAny.asMap]
  cases hq : GoAny.index args "code" <;> simp [GoAny.asString]
  exact absurd hq (hcode _)

theorem handle_noTemp (env : Env) (request : CallToolRequest) (w : World)
    (args : List (String × GoAny)) (code err : String)
    (hargs : request.params.arguments = GoAny.map args)
    (hcode : GoAny.index args "code" = GoAny.string code)
    (hmk : env.mkdirTemp "" "python_repl" w.fs = Except.error err) :
    handlePythonExecution env request w =
      ((some (mcp.NewToolResultError ("Failed to create temporary directory: " ++ err)), none),
        World.mk w.fs (w.calls ++ [SysCall.mkdirTemp "" "python_repl"])) := by
  unfold handlePythonExecution
  simp [hargs, GoAny.asMap, hcode, GoAny.asString, os.MkdirTemp, hmk]

theorem handle_temp (env : Env) (request : CallToolRequest) (w : World)
    (args : List (String × GoAny)) (code tmpDir : String)
    (hargs : request.params.arguments = GoAny.map args)
    (hcode : GoAny.index args "code" = GoAny.string code)
    (hmk : env.mkdirTemp "" "python_repl" w.fs = Except.ok tmpDir) :
    handlePythonExecution env request w =
      ((handlePythonExecution.staged env code (requestedModules args) tmpDir
          (World.mk (w.fs.mkdir tmpDir) (w.calls ++ [SysCall.mkdirTemp "" "python_repl"]))).1,
        (os.RemoveAll env tmpDir
          (handlePythonExecution.staged env code (requestedModules args) tmpDir
            (World.mk (w.fs.mkdir tmpDir) (w.calls ++ [SysCall.mkdirTemp "" "python_repl"]))).2).2)
        := by
  unfold handlePythonExecution
  simp [hargs, GoAny.asMap, hcode, GoAny.asString, os.MkdirTemp, hmk, requestedModules]

theorem staged_noWrite (env : Env) (code : String) (modules : List String) (tmpDir : String)
    (w : World) (err : String) (left : Option String)
    (hwr : env.writeFile (path.Join [tmpDir, "script.py"]) code 0o644 w.fs = some (err, left)) :
    (handlePythonExecution.staged env code modules tmpDir w).1 =
        (some (mcp.NewToolResultError ("Failed to write script to temporary directory: " ++ err)),
          none) ∧
      (handlePythonExecution.staged env code modules tmpDir w).2.calls =
        w.calls ++ [SysCall.writeFile (path.Join [tmpDir, "script.py"]) code 0o644] := by
  unfold handlePythonExecution.staged
  cases left <;> simp [os.WriteFile, hwr]

theorem staged_written (env : Env) (code : String) (modules : List String) (tmpDir : String)
    (w : World)
    (hwr : env.writeFile (path.Join [tmpDir, "script.py"]) code 0o644 w.fs = none) :
    handlePythonExecution.staged env code modules tmpDir w =
      (outputReturn (exec.Output env "docker" (dockerArgs tmpDir modules)
          (World.mk (w.fs.writeFile (path.Join [tmpDir, "script.py"]) code)
            (w.calls ++ [SysCall.writeFile (path.Join [tmpDir, "script.py"]) code 0o644]))).1,
        (exec.Output env "docker" (dockerArgs tmpDir modules)
          (World.mk (w.fs.writeFile (path.Join [tmpDir, "script.py"]) code)
            (w.calls ++ [SysCall.writeFile (path.Join [tmpDir, "script.py"]) code 0o644]))).2) := by
  unfold handlePythonExecution.staged
  simp only [os.WriteFile, hwr, dockerArgs, shellCommand]
  split <;> rename_i heq <;> simp only [heq, outputReturn]

theorem handle_reaches (env : Env) (request : CallToolRequest) (w : World)
    (args : List (String × GoAny)) (code tmpDir : String)
    (h : ReachesExecution env request w args code tmpDir) :
    handlePythonExecution env request w =
      (outputReturn (exec.Output env "docker" (dockerArgs tmpDir (requestedModules args))
          (stagedWorld w tmpDir code)).1,
        (os.RemoveAll env tmpDir
          (exec.Output env "docker" (dockerArgs tmpDir (requestedModules args))
            (stagedWorld w tmpDir code)).2).2) := by
  obtain ⟨hargs, hcode, hmk, hwr⟩ := h
  rw [handle_temp env request w args code tmpDir hargs hcode hmk,
    staged_written env code (requestedModules args) tmpDir _ hwr]
  rfl

theorem output_calls (env : Env) (name : String) (args : List String) (w : World) :
    (exec.Output env name args w).2 =
      World.mk (env.run name args w.fs).2 (w.calls ++ [SysCall.command name args]) := by
  unfold exec.Output
  split
  · rename_i heq; split <;> simp [heq]
  · rename_i heq; simp [heq]

theorem removeAll_calls (env : Env) (p : String) (w : World) :
    (os.RemoveAll env p w).2.calls = w.calls ++ [SysCall.removeAll p] := by
  unfold os.RemoveAll
  split <;> rfl

theorem invocations_append (xs ys : List SysCall) :
    invocations (xs ++ ys) = invocations xs ++ invocations ys := by
  induction xs with
  | nil => rfl
  | cons c rest ih => cases c <;> simp [invocations, ih]

theorem outputReturn_shape (x : String × Option ExecError) :
    ∃ r text, outputReturn x = (some r, none) ∧
      (r = CallToolResult.mk [TextContent.mk "text" text] false ∨
        r = CallToolResult.mk [TextContent.mk "text" text] true) := by
  obtain ⟨out, err⟩ := x
  cases err with
  | none => exact ⟨_, out, rfl, Or.inl rfl⟩
  | some e =>
    cases e with
    | exitError exitCode stderr => exact ⟨_, _, rfl, Or.inr rfl⟩
    | other msg => exact ⟨_, _, rfl, Or.inr rfl⟩

theorem index_notString (args : List (String × GoAny)) (k : String)
    (h : args.lookup k = none ∨ ∃ v, args.lookup k = some v ∧ ∀ s, v ≠ GoAny.string s) :
    ∀ s, GoAny.index args k ≠ GoAny.string s := by
  intro s
  unfold GoAny.index
  rcases h with h | ⟨v, h, hv⟩
  · simp [h]
  · simp only [h]; exact hv s

/-! ## Argument checking (C1, C8) and the shape of the return value (C7) -/

/-- C1: when the arguments are a map in which `code` is absent or is not a
string, the handler returns the error result with the text
`Missing or invalid code parameter`, which differs from the result for a bad
argument shape, and it returns the world it was given: no system call is made
and the filesystem is untouched. -/
theorem missing_code_is_reported_without_effects (env : Env) (request : CallToolRequest)
    (w : World) (args : List (String × GoAny))
    (hargs : request.params.arguments = GoAny.map args)
    (hcode : args.lookup "code" = none ∨
      ∃ v, args.lookup "code" = some v ∧ ∀ s, v ≠ GoAny.string s) :
    handlePythonExecution env request w =
        ((some (mcp.NewToolResultError "Missing or invalid code parameter"), none), w) ∧
      (mcp.NewToolResultError "Missing or invalid code parameter").isError = true ∧
      mcp.NewToolResultError "Missing or invalid code parameter" ≠
        mcp.NewToolResultError "Invalid arguments" := by
  refine ⟨handle_noCode env request w args hargs (index_notString args "code" hcode), rfl, ?_⟩
  decide

theorem missing_code_is_reported_without_effects_witness :
    ([("modules", GoAny.string "requests")].lookup "code" = none ∨
      ∃ v, [("modules", GoAny.string "requests")].lookup "code" = some v ∧
        ∀ s, v ≠ GoAny.string s) ∧
    (handlePythonExecution (envWith (ProcessResult.exited 0 "" ""))
        (requestOf (GoAny.map [("modules", GoAny.string "requests")])) emptyWorld =
        ((some (mcp.NewToolResultError "Missing or invalid code parameter"), none), emptyWorld) ∧
      (mcp.NewToolResultError "Missing or invalid code parameter").isError = true ∧
      mcp.NewToolResultError "Missing or invalid code parameter" ≠
        mcp.NewToolResultError "Invalid arguments") :=
  ⟨Or.inl rfl,
    missing_code_is_reported_without_effects (envWith (ProcessResult.exited 0 "" ""))
      (requestOf (GoAny.map [("modules", GoAny.string "requests")])) emptyWorld
      [("modules", GoAny.string "requests")] rfl (Or.inl rfl)⟩

/-- C7: whatever the request and whatever the operating system answers, the
handler returns a nil error together with one non-nil result, and that result
holds exactly one text item and is either a text result (error flag unset) or
an error result (error flag set). -/
theorem handler_returns_one_result_and_nil_error (env : Env) (request : CallToolRequest)
    (w : World) :
    ∃ r text, (handlePythonExecution env request w).1 = (some r, none) ∧
      (r = CallToolResult.mk [TextContent.mk "text" text] false ∨
        r = CallToolResult.mk [TextContent.mk "text" text] true) := by
  cases hq : request.params.arguments with
  | map args =>
    cases hc : GoAny.index args "code" with
    | string code =>
      cases hmk : env.mkdirTemp "" "python_repl" w.fs with
      | error err =>
        rw [handle_noTemp env request w args code err hq hc hmk]
        exact ⟨_, _, rfl, Or.inr rfl⟩
      | ok tmpDir =>
        rw [handle_temp env request w args code tmpDir hq hc hmk]
        cases hwr : env.writeFile (path.Join [tmpDir, "script.py"]) code 0o644 (w.fs.mkdir tmpDir)
          with
        | none =>
          rw [staged_written env code (requestedModules args) tmpDir _ hwr]
          exact outputReturn_shape _
        | some failure =>
          obtain ⟨err, left⟩ := failure
          have h := (staged_noWrite env code (requestedModules args) tmpDir
            (World.mk (w.fs.mkdir tmpDir) (w.calls ++ [SysCall.mkdirTemp "" "python_repl"]))
            err left hwr).1
          exact ⟨_, _, h, Or.inr rfl⟩
    | nil | bool | float64 | slice | map =>
      rw [handle_noCode env request w args hq (by intro s; rw [hc]; exact GoAny.noConfusion)]
      exact ⟨_, _, rfl, Or.inr rfl⟩
  | nil | bool | float64 | string | slice =>
    rw [handle_notMap env request w (by intro kvs; rw [hq]; exact GoAny.noConfusion)]
    exact ⟨_, _, rfl, Or.inr rfl⟩

/-- C8: a request whose arguments are not a map gets the error result (one
text item, error flag set) with the text `Invalid arguments` and causes no
system call at all; a request for which the temporary directory cannot be
created, or for which the script cannot be written, gets an error result
naming the failure, and no program is started in either case. -/
theorem bad_shape_and_staging_failures_start_no_container (env : Env)
    (request : CallToolRequest) (w : World) :
    ((∀ kvs, request.params.arguments ≠ GoAny.map kvs) →
      handlePythonExecution env request w =
        ((some (CallToolResult.mk [TextContent.mk "text" "Invalid arguments"] true), none), w)) ∧
    (∀ args code err, request.params.arguments = GoAny.map args →
      GoAny.index args "code" = GoAny.string code →
      env.mkdirTemp "" "python_repl" w.fs = Except.error err →
      (handlePythonExecution env request w).1 =
          (some (CallToolResult.mk
            [TextContent.mk "text" ("Failed to create temporary directory: " ++ err)] true),
            none) ∧
        invocations (handlePythonExecution env request w).2.calls = invocations w.calls) ∧
    (∀ args code tmpDir err left, request.params.arguments = GoAny.map args →
      GoAny.index args "code" = GoAny.string code →
      env.mkdirTemp "" "python_repl" w.fs = Except.ok tmpDir →
      env.writeFile (path.Join [tmpDir, "script.py"]) code 0o644 (w.fs.mkdir tmpDir) =
        some (err, left) →
      (handlePythonExecution env request w).1 =
          (some (CallToolResult.mk
            [TextContent.mk "text" ("Failed to write script to temporary directory: " ++ err)]
            true), none) ∧
        invocations (handlePythonExecution env request w).2.calls = invocations w.calls) := by
  refine ⟨handle_notMap env request w, ?_, ?_⟩
  · intro args code err hargs hcode hmk
    rw [handle_noTemp env request w args code err hargs hcode hmk]
    refine ⟨rfl, ?_⟩
    simp [invocations_append, invocations]
  · intro args code tmpDir err left hargs hcode hmk hwr
    rw [handle_temp env request w args code tmpDir hargs hcode hmk]
    have h := staged_noWrite env code (requestedModules args) tmpDir
      (World.mk (w.fs.mkdir tmpDir) (w.calls ++ [SysCall.mkdirTemp "" "python_repl"]))
      err left hwr
    refine ⟨h.1, ?_⟩
    simp [removeAll_calls, h.2, invocations_append, invocations]

theorem bad_shape_and_staging_failures_start_no_container_witness :
    handlePythonExecution envNoTemp (requestOf (GoAny.string "print(1)")) emptyWorld =
        ((some (CallToolResult.mk [TextContent.mk "text" "Invalid arguments"] true), none),
          emptyWorld) ∧
    ((handlePythonExecution envNoTemp
          (requestOf (GoAny.map [("code", GoAny.string "print(1)")])) emptyWorld).1 =
        (some (CallToolResult.mk
          [TextContent.mk "text"
            "Failed to create temporary directory: mkdir /tmp/python_repl1: no space left on device"]
          true), none) ∧
      invocations (handlePythonExecution envNoTemp
          (requestOf (GoAny.map [("code", GoAny.string "print(1)")])) emptyWorld).2.calls = []) ∧
    ((handlePythonExecution envNoWrite
          (requestOf (GoAny.map [("code", GoAny.string "print(1)")])) emptyWorld).1 =
        (some (CallToolResult.mk
          [TextContent.mk "text"
            ("Failed to write script to temporary directory: " ++
              "write /tmp/python_repl1/script.py: no space left on device")] true), none) ∧
      invocations (handlePythonExecution envNoWrite
          (requestOf (GoAny.map [("code", GoAny.string "print(1)")])) emptyWorld).2.calls = []) :=
  ⟨(bad_shape_and_staging_failures_start_no_container envNoTemp
      (requestOf (GoAny.string "print(1)")) emptyWorld).1
      (fun _ => GoAny.noConfusion),
    (bad_shape_and_staging_failures_start_no_container envNoTemp
      (requestOf (GoAny.map [("code", GoAny.string "print(1)")])) emptyWorld).2.1
      [("code", GoAny.string "print(1)")] "print(1)" _ rfl rfl rfl,
    (bad_shape_and_staging_failures_start_no_container envNoWrite
      (requestOf (GoAny.map [("code", GoAny.string "print(1)")])) emptyWorld).2.2
      [("code", GoAny.string "print(1)")] "print(1)" "/tmp/python_repl1" _ (some "") rfl rfl rfl
      rfl⟩

/-! ## The command handed to the container (C2, C3, C9) -/

theorem join_cons (a : String) (xs : List String) (sep : String) (hxs : xs ≠ []) :
    strings.Join (a :: xs) sep = a ++ sep ++ strings.Join xs sep := by
  cases xs with
  | nil => exact absurd rfl hxs
  | cons b rest => rfl

theorem join_append (xs ys : List String) (sep : String) (hxs : xs ≠ []) (hys : ys ≠ []) :
    strings.Join (xs ++ ys) sep = strings.Join xs sep ++ sep ++ strings.Join ys sep := by
  induction xs with
  | nil => exact absurd rfl hxs
  | cons a rest ih =>
    cases rest with
    | nil => exact join_cons a ys sep hys
    | cons b rest =>
      have hne : (b :: rest) ++ ys ≠ [] := by simp
      have step : strings.Join (a :: ((b :: rest) ++ ys)) sep =
          a ++ sep ++ strings.Join ((b :: rest) ++ ys) sep := join_cons a _ sep hne
      rw [List.cons_append, step, ih (by simp), join_cons a (b :: rest) sep (by simp)]
      simp only [String.append_assoc]

theorem lex_plain (w : List Char) (hw : ∀ c ∈ w, shPlain c = true) (rev cs : List Char) :
    shLex (ShPending.word rev) (w ++ cs) = shLex (ShPending.word (w.reverse ++ rev)) cs := by
  induction w generalizing rev with
  | nil => rfl
  | cons c w ih =>
    have hc : shPlain c = true := hw c (List.mem_cons_self c w)
    have step : shLex (ShPending.word rev) (c :: w ++ cs) =
        shLex (ShPending.word (c :: rev)) (w ++ cs) := by
      simp [shLex, shLexStep, hc]
    rw [step, ih (fun d hd => hw d (List.mem_cons_of_mem c hd))]
    simp

theorem lex_safe (w : String) (hw : shSafeWord w = true) (cs : List Char) :
    shLex ShPending.none (w.data ++ ' ' :: cs) = ShToken.word w :: shLex ShPending.none cs := by
  obtain ⟨chars⟩ := w
  simp only [shSafeWord, Bool.and_eq_true, Bool.not_eq_true', List.all_eq_true] at hw
  cases chars with
  | nil => simp at hw
  | cons c w =>
    have hc : shPlain c = true := hw.2 c (List.mem_cons_self c w)
    have step : shLex ShPending.none (c :: w ++ ' ' :: cs) =
        shLex (ShPending.word [c]) (w ++ ' ' :: cs) := by
      simp [shLex, shLexStep, shFresh, hc]
    show shLex ShPending.none (c :: w ++ ' ' :: cs) = _
    rw [step, lex_plain w (fun d hd => hw.2 d (List.mem_cons_of_mem c hd))]
    have hsp : shPlain ' ' = false := by decide
    simp [shLex, shLexStep, shFresh, hsp, closePending]

theorem lex_join (ws : List String) (hne : ws ≠ []) (hws : ∀ w ∈ ws, shSafeWord w = true)
    (cs : List Char) :
    shLex ShPending.none ((strings.Join ws " ").data ++ ' ' :: cs) =
      ws.map ShToken.word ++ shLex ShPending.none cs := by
  induction ws with
  | nil => exact absurd rfl hne
  | cons a rest ih =>
    cases rest with
    | nil => exact lex_safe a (hws a (List.mem_cons_self a [])) cs
    | cons b rest =>
      rw [join_cons a (b :: rest) " " (by simp)]
      have hdata : (a ++ " " ++ strings.Join (b :: rest) " ").data ++ ' ' :: cs =
          a.data ++ ' ' :: ((strings.Join (b :: rest) " ").data ++ ' ' :: cs) := by
        simp [String.data_append]
      rw [hdata, lex_safe a (hws a (List.mem_cons_self a _)),
        ih (by simp) (fun w hw => hws w (List.mem_cons_of_mem a hw))]
      rfl

theorem exec_words (ok : ShOracle) (ws : List String) (st : ShState) (ts : List ShToken) :
    shExec ok st (ws.map ShToken.word ++ ts) =
      shExec ok (ShState.mk st.trace st.status st.skip st.pending (st.cur ++ ws)) ts := by
  induction ws generalizing st with
  | nil => simp
  | cons w ws ih =>
    have h := ih (ShState.mk st.trace st.status st.skip st.pending (st.cur ++ [w]))
    simp only [List.append_assoc, List.singleton_append] at h
    simpa [shExec, shStep] using h

theorem shRun_install (ok : ShOracle) (pieces : List String)
    (hsafe : ∀ w ∈ pieces, shSafeWord w = true) :
    shRun ok
        (strings.Join
          (["python", "-m", "pip", "install", "--quiet"] ++ pieces ++
            ["&&", "python", "app/script.py"]) " ") =
      some
        ((["python", "-m", "pip", "install", "--quiet"] ++ pieces) ::
          (if ok [] (["python", "-m", "pip", "install", "--quiet"] ++ pieces) = true then
            [["python", "app/script.py"]]
          else [])) := by
  have hall : ∀ w ∈ ["python", "-m", "pip", "install", "--quiet"] ++ pieces,
      shSafeWord w = true := by
    intro w hw
    rcases List.mem_append.mp hw with h | h
    · simp only [List.mem_cons, List.mem_singleton, List.not_mem_nil, or_false] at h
      rcases h with rfl | rfl | rfl | rfl | rfl <;> decide
    · exact hsafe w h
  have htail : strings.Join ["&&", "python", "app/script.py"] " " = "&& python app/script.py" := by
    decide
  have hdata : (strings.Join
        (["python", "-m", "pip", "install", "--quiet"] ++ pieces ++
          ["&&", "python", "app/script.py"]) " ").data =
      (strings.Join (["python", "-m", "pip", "install", "--quiet"] ++ pieces) " ").data ++
        ' ' :: "&& python app/script.py".data := by
    rw [join_append _ _ " " (by simp) (by simp), htail]
    simp [String.data_append]
  have hlex : shLex ShPending.none "&& python app/script.py".data =
      [ShToken.andIf, ShToken.word "python", ShToken.word "app/script.py"] := by decide
  unfold shRun
  rw [hdata, lex_join _ (by simp) hall, hlex, exec_words]
  simp only [List.cons_append, List.nil_append]
  rcases Bool.eq_false_or_eq_true
      (ok [] ("python" :: "-m" :: "pip" :: "install" :: "--quiet" :: pieces)) with hok | hok <;>
    simp [shExec, shStep, shFinish, shReserved, hok]

theorem splitOnChar_ne_nil (sep : Char) (cs : List Char) : splitOnChar sep cs ≠ [] := by
  cases cs with
  | nil => simp [splitOnChar]
  | cons c rest =>
    unfold splitOnChar
    split
    · simp
    · split <;> simp

theorem split_ne_nil (s : String) (sep : Char) : strings.Split s sep ≠ [] := by
  unfold strings.Split
  simpa using splitOnChar_ne_nil sep s.data

theorem scriptArg_eq : path.Join ["app", "script.py"] = "app/script.py" := by decide

theorem shellCommand_nil : shellCommand [] = "python app/script.py" := by decide

theorem shellCommand_install (modules : List String) (h : modules ≠ []) :
    shellCommand modules =
        strings.Join
          (["python", "-m", "pip", "install", "--quiet"] ++ modules ++
            ["&&", "python", "app/script.py"]) " " ∧
      shellCommand modules =
        "python -m pip install --quiet " ++ strings.Join modules " " ++
          " && python app/script.py" := by
  have hlen : modules.length > 0 := List.length_pos.mpr h
  have hlist : shellCommand modules =
      strings.Join
        (["python", "-m", "pip", "install", "--quiet"] ++ modules ++
          ["&&", "python", "app/script.py"]) " " := by
    unfold shellCommand
    rw [if_pos hlen, scriptArg_eq]
    simp
  refine ⟨hlist, ?_⟩
  rw [hlist, join_append _ _ " " (by simp) (by simp), join_append _ _ " " (by simp) h]
  have h1 : strings.Join ["python", "-m", "pip", "install", "--quiet"] " " ++ " " =
      "python -m pip install --quiet " := by decide
  have h2 : " " ++ strings.Join ["&&", "python", "app/script.py"] " " =
      " && python app/script.py" := by decide
  rw [h1, String.append_assoc, h2]

theorem requestedModules_of_string (args : List (String × GoAny)) (modulesStr : String)
    (hm : args.lookup "modules" = some (GoAny.string modulesStr)) (hne : modulesStr ≠ "") :
    requestedModules args = strings.Split modulesStr ',' := by
  simp [requestedModules, GoAny.index, hm, GoAny.asString, hne]

theorem requestedModules_of_none (args : List (String × GoAny))
    (hm : args.lookup "modules" = none ∨
      (∃ v, args.lookup "modules" = some v ∧ ∀ s, v ≠ GoAny.string s) ∨
      args.lookup "modules" = some (GoAny.string "")) :
    requestedModules args = [] := by
  unfold requestedModules GoAny.index
  rcases hm with hm | ⟨v, hm, hv⟩ | hm
  · simp [hm, GoAny.asString]
  · simp only [hm]
    cases v <;> simp [GoAny.asString]
    exact absurd rfl (hv _)
  · simp [hm, GoAny.asString]

theorem reaches_calls (env : Env) (request : CallToolRequest) (w : World)
    (args : List (String × GoAny)) (code tmpDir : String)
    (h : ReachesExecution env request w args code tmpDir) :
    (handlePythonExecution env request w).2.calls =
      w.calls ++
        [SysCall.mkdirTemp "" "python_repl",
          SysCall.writeFile (path.Join [tmpDir, "script.py"]) code 0o644,
          SysCall.command "docker" (dockerArgs tmpDir (requestedModules args)),
          SysCall.removeAll tmpDir] := by
  rw [handle_reaches env request w args code tmpDir h, removeAll_calls, output_calls]
  simp [stagedWorld]

theorem reaches_invocations (env : Env) (request : CallToolRequest) (w : World)
    (args : List (String × GoAny)) (code tmpDir : String)
    (h : ReachesExecution env request w args code tmpDir) :
    invocations (handlePythonExecution env request w).2.calls =
      invocations w.calls ++ [("docker", dockerArgs tmpDir (requestedModules args))] := by
  rw [reaches_calls env request w args code tmpDir h, invocations_append]
  rfl

theorem install_invocation (env : Env) (request : CallToolRequest) (w : World)
    (args : List (String × GoAny)) (code tmpDir modulesStr : String)
    (h : ReachesExecution env request w args code tmpDir)
    (hm : args.lookup "modules" = some (GoAny.string modulesStr)) (hne : modulesStr ≠ "") :
    invocations (handlePythonExecution env request w).2.calls =
      invocations w.calls ++
        [("docker",
          ["run", "--rm", "-v", tmpDir ++ ":/app",
            "mcr.microsoft.com/playwright/python:v1.49.1-noble", "sh", "-c",
            "python -m pip install --quiet " ++ strings.Join (strings.Split modulesStr ',') " " ++
              " && python app/script.py"])] := by
  have hs := shellCommand_install (strings.Split modulesStr ',') (split_ne_nil modulesStr ',')
  rw [reaches_invocations env request w args code tmpDir h,
    requestedModules_of_string args modulesStr hm hne, dockerArgs, hs.2]
  rfl

theorem shRun_installText (ok : ShOracle) (pieces : List String) (hne : pieces ≠ [])
    (hsafe : ∀ p ∈ pieces, shSafeWord p = true) :
    shRun ok
        ("python -m pip install --quiet " ++ strings.Join pieces " " ++
          " && python app/script.py") =
      some
        ((["python", "-m", "pip", "install", "--quiet"] ++ pieces) ::
          (if ok [] (["python", "-m", "pip", "install", "--quiet"] ++ pieces) = true then
            [["python", "app/script.py"]]
          else [])) := by
  have hs := shellCommand_install pieces hne
  rw [← hs.2, hs.1]
  exact shRun_install ok pieces hsafe

/-- C2, as stated, fails. For `modules` equal to `a;true` the shell command is
`python -m pip install --quiet a;true && python app/script.py`: when the
installer fails the shell goes on to `true` and then runs the script. For
`modules` equal to `a b,c` the pieces between the commas are `a b` and `c`,
but the installer is started with the three packages `a`, `b` and `c`. -/
theorem unquoted_modules_defeat_the_install_step :
    (invocations (handlePythonExecution (envWith (ProcessResult.exited 0 "" ""))
        (requestOf (GoAny.map [("code", GoAny.string "import a"),
          ("modules", GoAny.string "a;true")])) emptyWorld).2.calls =
      [("docker",
        ["run", "--rm", "-v", "/tmp/python_repl1:/app",
          "mcr.microsoft.com/playwright/python:v1.49.1-noble", "sh", "-c",
          "python -m pip install --quiet a;true && python app/script.py"])] ∧
      installFails [] ["python", "-m", "pip", "install", "--quiet", "a"] = false ∧
      shRun installFails "python -m pip install --quiet a;true && python app/script.py" =
        some [["python", "-m", "pip", "install", "--quiet", "a"], ["true"],
          ["python", "app/script.py"]]) ∧
    (strings.Split "a b,c" ',' = ["a b", "c"] ∧
      invocations (handlePythonExecution (envWith (ProcessResult.exited 0 "" ""))
        (requestOf (GoAny.map [("code", GoAny.string "import a"),
          ("modules", GoAny.string "a b,c")])) emptyWorld).2.calls =
      [("docker",
        ["run", "--rm", "-v", "/tmp/python_repl1:/app",
          "mcr.microsoft.com/playwright/python:v1.49.1-noble", "sh", "-c",
          "python -m pip install --quiet a b c && python app/script.py"])] ∧
      shRun allSucceed "python -m pip install --quiet a b c && python app/script.py" =
        some [["python", "-m", "pip", "install", "--quiet", "a", "b", "c"],
          ["python", "app/script.py"]]) := by
  decide

/-- C2, amended: when the request reaches execution, `modules` is a non-empty
string, and every piece of it between commas is a non-empty word of plain
characters (letters, digits and `-_./:+,@%=`), `docker` is started once with
the shell command
`python -m pip install --quiet <pieces separated by spaces> && python app/script.py`,
and the shell runs the quiet installer with exactly the pieces as packages, in
order, and after it the script if and only if the installer succeeded. -/
theorem plain_modules_are_installed_before_the_script (env : Env)
    (request : CallToolRequest) (w : World) (args : List (String × GoAny))
    (code tmpDir modulesStr : String)
    (h : ReachesExecution env request w args code tmpDir)
    (hm : args.lookup "modules" = some (GoAny.string modulesStr)) (hne : modulesStr ≠ "")
    (hsafe : ∀ p ∈ strings.Split modulesStr ',', shSafeWord p = true) :
    invocations (handlePythonExecution env request w).2.calls =
        invocations w.calls ++
          [("docker",
            ["run", "--rm", "-v", tmpDir ++ ":/app",
              "mcr.microsoft.com/playwright/python:v1.49.1-noble", "sh", "-c",
              "python -m pip install --quiet " ++
                strings.Join (strings.Split modulesStr ',') " " ++
                " && python app/script.py"])] ∧
      ∀ ok : ShOracle,
        shRun ok
            ("python -m pip install --quiet " ++
              strings.Join (strings.Split modulesStr ',') " " ++ " && python app/script.py") =
          some
            ((["python", "-m", "pip", "install", "--quiet"] ++ strings.Split modulesStr ',') ::
              (if ok [] (["python", "-m", "pip", "install", "--quiet"] ++
                  strings.Split modulesStr ',') = true then
                [["python", "app/script.py"]]
              else [])) :=
  ⟨install_invocation env request w args code tmpDir modulesStr h hm hne,
    fun ok => shRun_installText ok (strings.Split modulesStr ',') (split_ne_nil modulesStr ',')
      hsafe⟩

theorem plain_modules_are_installed_before_the_script_witness :
    (ReachesExecution (envWith (ProcessResult.exited 0 "" ""))
        (requestOf (GoAny.map [("code", GoAny.string "import a"), ("modules", GoAny.string "a,b,c")]))
        emptyWorld [("code", GoAny.string "import a"), ("modules", GoAny.string "a,b,c")]
        "import a" "/tmp/python_repl1" ∧
      [("code", GoAny.string "import a"), ("modules", GoAny.string "a,b,c")].lookup "modules" =
        some (GoAny.string "a,b,c") ∧
      "a,b,c" ≠ "" ∧
      ∀ p ∈ strings.Split "a,b,c" ',', shSafeWord p = true) ∧
    invocations (handlePythonExecution (envWith (ProcessResult.exited 0 "" ""))
        (requestOf (GoAny.map [("code", GoAny.string "import a"), ("modules", GoAny.string "a,b,c")]))
        emptyWorld).2.calls =
      [("docker",
        ["run", "--rm", "-v", "/tmp/python_repl1:/app",
          "mcr.microsoft.com/playwright/python:v1.49.1-noble", "sh", "-c",
          "python -m pip install --quiet a b c && python app/script.py"])] ∧
    shRun installFails "python -m pip install --quiet a b c && python app/script.py" =
      some [["python", "-m", "pip", "install", "--quiet", "a", "b", "c"]] ∧
    shRun allSucceed "python -m pip install --quiet a b c && python app/script.py" =
      some [["python", "-m", "pip", "install", "--quiet", "a", "b", "c"],
        ["python", "app/script.py"]] :=
  ⟨⟨⟨rfl, rfl, rfl, rfl⟩, rfl, by decide, by decide⟩,
    (plain_modules_are_installed_before_the_script (envWith (ProcessResult.exited 0 "" ""))
      (requestOf (GoAny.map [("code", GoAny.string "import a"), ("modules", GoAny.string "a,b,c")]))
      emptyWorld [("code", GoAny.string "import a"), ("modules", GoAny.string "a,b,c")]
      "import a" "/tmp/python_repl1" "a,b,c" ⟨rfl, rfl, rfl, rfl⟩ rfl (by decide) (by decide)).1,
    (plain_modules_are_installed_before_the_script (envWith (ProcessResult.exited 0 "" ""))
      (requestOf (GoAny.map [("code", GoAny.string "import a"), ("modules", GoAny.string "a,b,c")]))
      emptyWorld [("code", GoAny.string "import a"), ("modules", GoAny.string "a,b,c")]
      "import a" "/tmp/python_repl1" "a,b,c" ⟨rfl, rfl, rfl, rfl⟩ rfl (by decide) (by decide)).2
      installFails,
    (plain_modules_are_installed_before_the_script (envWith (ProcessResult.exited 0 "" ""))
      (requestOf (GoAny.map [("code", GoAny.string "import a"), ("modules", GoAny.string "a,b,c")]))
      emptyWorld [("code", GoAny.string "import a"), ("modules", GoAny.string "a,b,c")]
      "import a" "/tmp/python_repl1" "a,b,c" ⟨rfl, rfl, rfl, rfl⟩ rfl (by decide) (by decide)).2
      allSucceed⟩

/-- C3: when the request reaches execution and `modules` is absent, is not a
string, or is the empty string, `docker` is started once and its shell command
is exactly `python app/script.py`, with no install step. In particular a
request without `modules` and a request whose `modules` is the empty string,
staged in the same directory, start `docker` with the same argument vector. -/
theorem without_modules_only_the_script_runs (env : Env) (request : CallToolRequest)
    (w : World) (args : List (String × GoAny)) (code tmpDir : String)
    (h : ReachesExecution env request w args code tmpDir)
    (hm : args.lookup "modules" = none ∨
      (∃ v, args.lookup "modules" = some v ∧ ∀ s, v ≠ GoAny.string s) ∨
      args.lookup "modules" = some (GoAny.string "")) :
    invocations (handlePythonExecution env request w).2.calls =
        invocations w.calls ++
          [("docker",
            ["run", "--rm", "-v", tmpDir ++ ":/app",
              "mcr.microsoft.com/playwright/python:v1.49.1-noble", "sh", "-c",
              "python app/script.py"])] ∧
      ∀ (env2 : Env) (request2 : CallToolRequest) (w2 : World) (args2 : List (String × GoAny))
        (code2 : String),
        ReachesExecution env2 request2 w2 args2 code2 tmpDir →
        args.lookup "modules" = none →
        args2.lookup "modules" = some (GoAny.string "") →
        ∃ argv,
          invocations (handlePythonExecution env request w).2.calls =
              invocations w.calls ++ [("docker", argv)] ∧
            invocations (handlePythonExecution env2 request2 w2).2.calls =
              invocations w2.calls ++ [("docker", argv)] := by
  have key : ∀ (env1 : Env) (request1 : CallToolRequest) (w1 : World)
      (args1 : List (String × GoAny)) (code1 : String),
      ReachesExecution env1 request1 w1 args1 code1 tmpDir →
      (args1.lookup "modules" = none ∨
        (∃ v, args1.lookup "modules" = some v ∧ ∀ s, v ≠ GoAny.string s) ∨
        args1.lookup "modules" = some (GoAny.string "")) →
      invocations (handlePythonExecution env1 request1 w1).2.calls =
        invocations w1.calls ++
          [("docker",
            ["run", "--rm", "-v", tmpDir ++ ":/app",
              "mcr.microsoft.com/playwright/python:v1.49.1-noble", "sh", "-c",
              "python app/script.py"])] := by
    intro env1 request1 w1 args1 code1 h1 hm1
    rw [reaches_invocations env1 request1 w1 args1 code1 tmpDir h1,
      requestedModules_of_none args1 hm1, dockerArgs, shellCommand_nil]
    rfl
  refine ⟨key env request w args code h hm, ?_⟩
  intro env2 request2 w2 args2 code2 h2 _ hm2
  exact ⟨_, key env request w args code h hm,
    key env2 request2 w2 args2 code2 h2 (Or.inr (Or.inr hm2))⟩

theorem without_modules_only_the_script_runs_witness :
    (ReachesExecution (envWith (ProcessResult.exited 0 "" ""))
        (requestOf (GoAny.map [("code", GoAny.string "print(1)")]))
        emptyWorld [("code", GoAny.string "print(1)")] "print(1)" "/tmp/python_repl1" ∧
      [("code", GoAny.string "print(1)")].lookup "modules" = none ∧
      ReachesExecution (envWith (ProcessResult.exited 0 "" ""))
        (requestOf (GoAny.map [("code", GoAny.string "print(2)"), ("modules", GoAny.string "")]))
        emptyWorld [("code", GoAny.string "print(2)"), ("modules", GoAny.string "")]
        "print(2)" "/tmp/python_repl1" ∧
      [("code", GoAny.string "print(2)"), ("modules", GoAny.string "")].lookup "modules" =
        some (GoAny.string "")) ∧
    invocations (handlePythonExecution (envWith (ProcessResult.exited 0 "" ""))
        (requestOf (GoAny.map [("code", GoAny.string "print(1)")])) emptyWorld).2.calls =
      [("docker",
        ["run", "--rm", "-v", "/tmp/python_repl1:/app",
          "mcr.microsoft.com/playwright/python:v1.49.1-noble", "sh", "-c",
          "python app/script.py"])] ∧
    ∃ argv,
      invocations (handlePythonExecution (envWith (ProcessResult.exited 0 "" ""))
          (requestOf (GoAny.map [("code", GoAny.string "print(1)")])) emptyWorld).2.calls =
        invocations emptyWorld.calls ++ [("docker", argv)] ∧
      invocations (handlePythonExecution (envWith (ProcessResult.exited 0 "" ""))
          (requestOf (GoAny.map [("code", GoAny.string "print(2)"), ("modules", GoAny.string "")]))
          emptyWorld).2.calls =
        invocations emptyWorld.calls ++ [("docker", argv)] :=
  ⟨⟨⟨rfl, rfl, rfl, rfl⟩, rfl, ⟨rfl, rfl, rfl, rfl⟩, rfl⟩,
    (without_modules_only_the_script_runs (envWith (ProcessResult.exited 0 "" ""))
      (requestOf (GoAny.map [("code", GoAny.string "print(1)")]))
      emptyWorld [("code", GoAny.string "print(1)")]
      "print(1)" "/tmp/python_repl1" ⟨rfl, rfl, rfl, rfl⟩ (Or.inl rfl)).1,
    (without_modules_only_the_script_runs (envWith (ProcessResult.exited 0 "" ""))
      (requestOf (GoAny.map [("code", GoAny.string "print(1)")]))
      emptyWorld [("code", GoAny.string "print(1)")]
      "print(1)" "/tmp/python_repl1" ⟨rfl, rfl, rfl, rfl⟩ (Or.inl rfl)).2
      (envWith (ProcessResult.exited 0 "" ""))
      (requestOf (GoAny.map [("code", GoAny.string "print(2)"), ("modules", GoAny.string "")]))
      emptyWorld [("code", GoAny.string "print(2)"), ("modules", GoAny.string "")] "print(2)"
      ⟨rfl, rfl, rfl, rfl⟩ rfl rfl⟩

/-- C9: when the request reaches execution with staging directory `tmpDir`,
the one program started is `docker`, with the argument vector
`run --rm -v tmpDir:/app <image> sh -c <shell command>`; the shell command is a
single argument, so the vector has 8 elements whatever the code and the
modules are. -/
theorem docker_argument_vector (env : Env) (request : CallToolRequest) (w : World)
    (args : List (String × GoAny)) (code tmpDir : String)
    (h : ReachesExecution env request w args code tmpDir) :
    ∃ argv,
      invocations (handlePythonExecution env request w).2.calls =
          invocations w.calls ++ [("docker", argv)] ∧
        argv =
          ["run", "--rm", "-v", tmpDir ++ ":/app",
            "mcr.microsoft.com/playwright/python:v1.49.1-noble", "sh", "-c",
            shellCommand (requestedModules args)] ∧
        argv.length = 8 :=
  ⟨dockerArgs tmpDir (requestedModules args),
    reaches_invocations env request w args code tmpDir h, rfl, rfl⟩

theorem docker_argument_vector_witness :
    ReachesExecution (envWith (ProcessResult.exited 0 "" ""))
        (requestOf (GoAny.map [("code", GoAny.string "import a"), ("modules", GoAny.string "a,b")]))
        emptyWorld [("code", GoAny.string "import a"), ("modules", GoAny.string "a,b")]
        "import a" "/tmp/python_repl1" ∧
    ∃ argv,
      invocations (handlePythonExecution (envWith (ProcessResult.exited 0 "" ""))
          (requestOf (GoAny.map [("code", GoAny.string "import a"), ("modules", GoAny.string "a,b")]))
          emptyWorld).2.calls = invocations emptyWorld.calls ++ [("docker", argv)] ∧
        argv =
          ["run", "--rm", "-v", "/tmp/python_repl1" ++ ":/app",
            "mcr.microsoft.com/playwright/python:v1.49.1-noble", "sh", "-c",
            shellCommand (requestedModules
              [("code", GoAny.string "import a"), ("modules", GoAny.string "a,b")])] ∧
        argv.length = 8 :=
  ⟨⟨rfl, rfl, rfl, rfl⟩,
    docker_argument_vector (envWith (ProcessResult.exited 0 "" ""))
      (requestOf (GoAny.map [("code", GoAny.string "import a"), ("modules", GoAny.string "a,b")]))
      emptyWorld [("code", GoAny.string "import a"), ("modules", GoAny.string "a,b")]
      "import a" "/tmp/python_repl1" ⟨rfl, rfl, rfl, rfl⟩⟩

/-! ## Cleanup of the staging directory (C4) -/

theorem pathExists_removeAll (fs : FS) (p : String) : (fs.removeAll p).pathExists p = false := by
  simp [FS.pathExists, FS.removeAll, FS.within]

theorem pathExists_mkdir (fs : FS) (p : String) : (fs.mkdir p).pathExists p = true := by
  simp [FS.pathExists, FS.mkdir]

/-- C4, as stated, fails. The script, running as root in the container, leaves
`out/result.txt` in the mounted staging directory; the handler, not being root,
cannot remove that file, `os.RemoveAll` returns an error which line 76
discards, and the handler returns its text result while the staging directory
that `os.MkdirTemp` created still exists. -/
theorem staging_directory_survives_a_failed_removal :
    envLeftover.mkdirTemp "" "python_repl" emptyWorld.fs = Except.ok "/tmp/python_repl1" ∧
    (handlePythonExecution envLeftover
        (requestOf (GoAny.map [("code", GoAny.string
          "import os; os.mkdir('/app/out'); open('/app/out/result.txt', 'w').write('1'); print('done')")]))
        emptyWorld).1 =
      (some (CallToolResult.mk [TextContent.mk "text" "done\n"] false), none) ∧
    (handlePythonExecution envLeftover
        (requestOf (GoAny.map [("code", GoAny.string
          "import os; os.mkdir('/app/out'); open('/app/out/result.txt', 'w').write('1'); print('done')")]))
        emptyWorld).2.fs.pathExists "/tmp/python_repl1" = true ∧
    (handlePythonExecution envLeftover
        (requestOf (GoAny.map [("code", GoAny.string
          "import os; os.mkdir('/app/out'); open('/app/out/result.txt', 'w').write('1'); print('done')")]))
        emptyWorld).2.fs.readFile "/tmp/python_repl1/out/result.txt" = some "1" :=
  ⟨rfl, by decide, by decide, by decide⟩

/-- C4, amended: once `os.MkdirTemp` has created the directory `tmpDir` (it
exists in the world that call leaves), the last system call of the handler is
`os.RemoveAll(tmpDir)` on every later path (write failure, launch failure,
non-zero exit, success), and when that call reports no error nothing exists at
`tmpDir` in the world the handler returns. -/
theorem staging_directory_is_gone_when_removal_succeeds (env : Env)
    (request : CallToolRequest) (w : World) (args : List (String × GoAny))
    (code tmpDir : String)
    (hargs : request.params.arguments = GoAny.map args)
    (hcode : GoAny.index args "code" = GoAny.string code)
    (hmk : env.mkdirTemp "" "python_repl" w.fs = Except.ok tmpDir) :
    (os.MkdirTemp env "" "python_repl" w).2.fs.pathExists tmpDir = true ∧
      (handlePythonExecution env request w).2.calls.getLast? = some (SysCall.removeAll tmpDir) ∧
      ((os.RemoveAll env tmpDir
          (handlePythonExecution.staged env code (requestedModules args) tmpDir
            (os.MkdirTemp env "" "python_repl" w).2).2).1 = none →
        (handlePythonExecution env request w).2.fs.pathExists tmpDir = false) := by
  have hw : (os.MkdirTemp env "" "python_repl" w).2 =
      World.mk (w.fs.mkdir tmpDir) (w.calls ++ [SysCall.mkdirTemp "" "python_repl"]) := by
    simp only [os.MkdirTemp, hmk]
  refine ⟨?_, ?_, ?_⟩
  · rw [hw]
    exact pathExists_mkdir w.fs tmpDir
  · rw [handle_temp env request w args code tmpDir hargs hcode hmk]
    simp [removeAll_calls]
  · rw [handle_temp env request w args code tmpDir hargs hcode hmk, hw]
    intro hrm
    unfold os.RemoveAll at hrm ⊢
    split at hrm
    · rename_i heq
      simp only [heq]
      exact pathExists_removeAll _ tmpDir
    · simp at hrm

theorem staging_directory_is_gone_when_removal_succeeds_witness :
    (envNoWrite.mkdirTemp "" "python_repl" emptyWorld.fs = Except.ok "/tmp/python_repl1" ∧
      (os.RemoveAll envNoWrite "/tmp/python_repl1"
        (handlePythonExecution.staged envNoWrite "print(1)"
          (requestedModules [("code", GoAny.string "print(1)")]) "/tmp/python_repl1"
          (os.MkdirTemp envNoWrite "" "python_repl" emptyWorld).2).2).1 = none) ∧
    (os.MkdirTemp envNoWrite "" "python_repl" emptyWorld).2.fs.pathExists "/tmp/python_repl1"
        = true ∧
      (handlePythonExecution envNoWrite
          (requestOf (GoAny.map [("code", GoAny.string "print(1)")])) emptyWorld).2.calls.getLast?
        = some (SysCall.removeAll "/tmp/python_repl1") ∧
      (handlePythonExecution envNoWrite
          (requestOf (GoAny.map [("code", GoAny.string "print(1)")]))
          emptyWorld).2.fs.pathExists "/tmp/python_repl1" = false :=
  ⟨⟨rfl, rfl⟩,
    (staging_directory_is_gone_when_removal_succeeds envNoWrite
      (requestOf (GoAny.map [("code", GoAny.string "print(1)")])) emptyWorld
      [("code", GoAny.string "print(1)")] "print(1)" "/tmp/python_repl1" rfl rfl rfl).1,
    (staging_directory_is_gone_when_removal_succeeds envNoWrite
      (requestOf (GoAny.map [("code", GoAny.string "print(1)")])) emptyWorld
      [("code", GoAny.string "print(1)")] "print(1)" "/tmp/python_repl1" rfl rfl rfl).2.1,
    (staging_directory_is_gone_when_removal_succeeds envNoWrite
      (requestOf (GoAny.map [("code", GoAny.string "print(1)")])) emptyWorld
      [("code", GoAny.string "print(1)")] "print(1)" "/tmp/python_repl1" rfl rfl rfl).2.2 rfl⟩

/-! ## Mapping the outcome of the run to the result (C5, C6) -/

theorem output_exit (env : Env) (name : String) (args : List String) (w : World)
    (n : Int) (o e : String)
    (hrun : (env.run name args w.fs).1 = ProcessResult.exited n o e) (hn : n ≠ 0) :
    (exec.Output env name args w).1 = (o, some (ExecError.exitError n e)) := by
  unfold exec.Output
  cases hr : env.run name args w.fs with
  | mk res fs =>
    rw [hr] at hrun
    simp only at hrun
    subst hrun
    simp [hn]

theorem output_success (env : Env) (name : String) (args : List String) (w : World)
    (o e : String)
    (hrun : (env.run name args w.fs).1 = ProcessResult.exited 0 o e) :
    (exec.Output env name args w).1 = (o, none) := by
  unfold exec.Output
  cases hr : env.run name args w.fs with
  | mk res fs =>
    rw [hr] at hrun
    simp only at hrun
    subst hrun
    simp

/-- C5: when the request reaches execution and the container run exits with a
non-zero status `n` and captured standard error `e`, the handler returns an
error result (one text item, error flag set) whose text is
`Python execution failed with code n: e`, with `n` in decimal and `e`
unchanged. -/
theorem nonzero_exit_reports_status_and_stderr (env : Env) (request : CallToolRequest)
    (w : World) (args : List (String × GoAny)) (code tmpDir : String) (n : Int) (o e : String)
    (h : ReachesExecution env request w args code tmpDir)
    (hrun : (containerRun env w args code tmpDir).1 = ProcessResult.exited n o e)
    (hn : n ≠ 0) :
    (handlePythonExecution env request w).1 =
      (some (CallToolResult.mk
        [TextContent.mk "text" ("Python execution failed with code " ++ toString n ++ ": " ++ e)]
        true), none) := by
  rw [handle_reaches env request w args code tmpDir h,
    output_exit env "docker" _ (stagedWorld w tmpDir code) n o e hrun hn]
  rfl

theorem nonzero_exit_reports_status_and_stderr_witness :
    (ReachesExecution (envWith (ProcessResult.exited 137 "partial" "Killed\n"))
        (requestOf (GoAny.map [("code", GoAny.string "print(1)")])) emptyWorld
        [("code", GoAny.string "print(1)")] "print(1)" "/tmp/python_repl1" ∧
      (containerRun (envWith (ProcessResult.exited 137 "partial" "Killed\n")) emptyWorld
        [("code", GoAny.string "print(1)")] "print(1)" "/tmp/python_repl1").1 =
        ProcessResult.exited 137 "partial" "Killed\n" ∧
      (137 : Int) ≠ 0) ∧
    (handlePythonExecution (envWith (ProcessResult.exited 137 "partial" "Killed\n"))
        (requestOf (GoAny.map [("code", GoAny.string "print(1)")])) emptyWorld).1 =
      (some (CallToolResult.mk
        [TextContent.mk "text" "Python execution failed with code 137: Killed\n"] true), none) :=
  ⟨⟨⟨rfl, rfl, rfl, rfl⟩, rfl, by decide⟩,
    nonzero_exit_reports_status_and_stderr
      (envWith (ProcessResult.exited 137 "partial" "Killed\n"))
      (requestOf (GoAny.map [("code", GoAny.string "print(1)")])) emptyWorld
      [("code", GoAny.string "print(1)")] "print(1)" "/tmp/python_repl1" 137 "partial" "Killed\n"
      ⟨rfl, rfl, rfl, rfl⟩ rfl (by decide)⟩

/-- C6: when the request reaches execution and the container run succeeds
with captured standard output `o`, the handler returns the text result whose
single content item has exactly the text `o`, and the result is not flagged as
an error. -/
theorem success_returns_stdout_verbatim (env : Env) (request : CallToolRequest)
    (w : World) (args : List (String × GoAny)) (code tmpDir : String) (o e : String)
    (h : ReachesExecution env request w args code tmpDir)
    (hrun : (containerRun env w args code tmpDir).1 = ProcessResult.exited 0 o e) :
    (handlePythonExecution env request w).1 = (some (mcp.NewToolResultText o), none) ∧
      (mcp.NewToolResultText o).content = [TextContent.mk "text" o] ∧
      (mcp.NewToolResultText o).isError = false := by
  refine ⟨?_, rfl, rfl⟩
  rw [handle_reaches env request w args code tmpDir h,
    output_success env "docker" _ (stagedWorld w tmpDir code) o e hrun]
  rfl

theorem success_returns_stdout_verbatim_witness :
    (ReachesExecution (envWith (ProcessResult.exited 0 "hello\n" ""))
        (requestOf (GoAny.map [("code", GoAny.string "print('hello')")])) emptyWorld
        [("code", GoAny.string "print('hello')")] "print('hello')" "/tmp/python_repl1" ∧
      (containerRun (envWith (ProcessResult.exited 0 "hello\n" "")) emptyWorld
        [("code", GoAny.string "print('hello')")] "print('hello')" "/tmp/python_repl1").1 =
        ProcessResult.exited 0 "hello\n" "") ∧
    (handlePythonExecution (envWith (ProcessResult.exited 0 "hello\n" ""))
        (requestOf (GoAny.map [("code", GoAny.string "print('hello')")])) emptyWorld).1 =
      (some (CallToolResult.mk [TextContent.mk "text" "hello\n"] false), none) :=
  ⟨⟨⟨rfl, rfl, rfl, rfl⟩, rfl⟩,
    (success_returns_stdout_verbatim (envWith (ProcessResult.exited 0 "hello\n" ""))
      (requestOf (GoAny.map [("code", GoAny.string "print('hello')")])) emptyWorld
      [("code", GoAny.string "print('hello')")] "print('hello')" "/tmp/python_repl1" "hello\n" ""
      ⟨rfl, rfl, rfl, rfl⟩ rfl).1⟩

/-! ## Which script the interpreter runs (C10) -/

theorem readFile_writeFile (fs : FS) (p data : String) :
    (fs.writeFile p data).readFile p = some data := by
  simp [FS.readFile, FS.writeFile, List.lookup]

theorem shRun_shellCommand (ok : ShOracle) (modules : List String)
    (hsafe : ∀ p ∈ modules, shSafeWord p = true) :
    shRun ok (shellCommand modules) =
      some
        (if modules = [] then [["python", "app/script.py"]]
        else
          (["python", "-m", "pip", "install", "--quiet"] ++ modules) ::
            (if ok [] (["python", "-m", "pip", "install", "--quiet"] ++ modules) = true then
              [["python", "app/script.py"]]
            else [])) := by
  by_cases hm : modules = []
  · subst hm
    rw [shellCommand_nil]
    rfl
  · rw [if_neg hm, (shellCommand_install modules hm).1]
    exact shRun_install ok modules hsafe

/-- C10, as stated, fails. For `modules` equal to `x && python other.py #` the
shell command is
`python -m pip install --quiet x && python other.py # && python app/script.py`:
the interpreter is told to run `other.py`, and the run of the staged script
lies in a comment. For `modules` equal to `x #` the whole script run lies in
the comment and the interpreter is given no script at all. -/
theorem unquoted_modules_replace_the_script_run :
    (invocations (handlePythonExecution (envWith (ProcessResult.exited 0 "" ""))
        (requestOf (GoAny.map [("code", GoAny.string "print(1)"),
          ("modules", GoAny.string "x && python other.py #")])) emptyWorld).2.calls =
      [("docker",
        ["run", "--rm", "-v", "/tmp/python_repl1:/app",
          "mcr.microsoft.com/playwright/python:v1.49.1-noble", "sh", "-c",
          "python -m pip install --quiet x && python other.py # && python app/script.py"])] ∧
      shRun allSucceed
          "python -m pip install --quiet x && python other.py # && python app/script.py" =
        some [["python", "-m", "pip", "install", "--quiet", "x"], ["python", "other.py"]]) ∧
    (invocations (handlePythonExecution (envWith (ProcessResult.exited 0 "" ""))
        (requestOf (GoAny.map [("code", GoAny.string "print(1)"),
          ("modules", GoAny.string "x #")])) emptyWorld).2.calls =
      [("docker",
        ["run", "--rm", "-v", "/tmp/python_repl1:/app",
          "mcr.microsoft.com/playwright/python:v1.49.1-noble", "sh", "-c",
          "python -m pip install --quiet x # && python app/script.py"])] ∧
      shRun allSucceed "python -m pip install --quiet x # && python app/script.py" =
        some [["python", "-m", "pip", "install", "--quiet", "x"]]) := by
  decide

/-- C10, amended: when the request reaches execution and `modules` is absent,
empty, or made of pieces that are non-empty words of plain characters, the code
is written unchanged to `script.py` in the staging directory before `docker` is
started (the filesystem the container is started on holds the code at that
path), the staging directory is mounted at `/app`, and the only script the
shell gives to the interpreter is `app/script.py`, run at once when there is no
install step and after a successful install otherwise; taken from the root
directory that path is `/app/script.py`, the place of `script.py` under the
mount target. -/
theorem staged_script_is_the_script_run (env : Env) (request : CallToolRequest)
    (w : World) (args : List (String × GoAny)) (code tmpDir : String)
    (h : ReachesExecution env request w args code tmpDir)
    (hsafe : ∀ p ∈ requestedModules args, shSafeWord p = true) :
    (handlePythonExecution env request w).2.calls =
        w.calls ++
          [SysCall.mkdirTemp "" "python_repl",
            SysCall.writeFile (path.Join [tmpDir, "script.py"]) code 0o644,
            SysCall.command "docker"
              ["run", "--rm", "-v", tmpDir ++ ":/app",
                "mcr.microsoft.com/playwright/python:v1.49.1-noble", "sh", "-c",
                shellCommand (requestedModules args)],
            SysCall.removeAll tmpDir] ∧
      (stagedWorld w tmpDir code).fs.readFile (path.Join [tmpDir, "script.py"]) = some code ∧
      (handlePythonExecution env request w).2 =
        (os.RemoveAll env tmpDir
          (World.mk
            (env.run "docker"
              ["run", "--rm", "-v", tmpDir ++ ":/app",
                "mcr.microsoft.com/playwright/python:v1.49.1-noble", "sh", "-c",
                shellCommand (requestedModules args)]
              (stagedWorld w tmpDir code).fs).2
            ((stagedWorld w tmpDir code).calls ++
              [SysCall.command "docker"
                ["run", "--rm", "-v", tmpDir ++ ":/app",
                  "mcr.microsoft.com/playwright/python:v1.49.1-noble", "sh", "-c",
                  shellCommand (requestedModules args)]]))).2 ∧
      (∀ ok : ShOracle,
        shRun ok (shellCommand (requestedModules args)) =
          some
            (if requestedModules args = [] then [["python", "app/script.py"]]
            else
              (["python", "-m", "pip", "install", "--quiet"] ++ requestedModules args) ::
                (if ok [] (["python", "-m", "pip", "install", "--quiet"] ++
                    requestedModules args) = true then
                  [["python", "app/script.py"]]
                else []))) ∧
      path.Join ["/", "app/script.py"] = path.Join ["/app", "script.py"] ∧
      path.Join ["/app", "script.py"] = "/app/script.py" := by
  refine ⟨reaches_calls env request w args code tmpDir h, ?_, ?_,
    fun ok => shRun_shellCommand ok _ hsafe, by decide, by decide⟩
  · exact readFile_writeFile _ _ _
  · rw [handle_reaches env request w args code tmpDir h, output_calls]
    rfl

theorem staged_script_is_the_script_run_witness :
    (ReachesExecution (envWith (ProcessResult.exited 0 "hello\n" ""))
        (requestOf (GoAny.map [("code", GoAny.string "print('hello')")])) emptyWorld
        [("code", GoAny.string "print('hello')")] "print('hello')" "/tmp/python_repl1" ∧
      ∀ p ∈ requestedModules [("code", GoAny.string "print('hello')")], shSafeWord p = true) ∧
    (handlePythonExecution (envWith (ProcessResult.exited 0 "hello\n" ""))
        (requestOf (GoAny.map [("code", GoAny.string "print('hello')")])) emptyWorld).2.calls =
      [SysCall.mkdirTemp "" "python_repl",
        SysCall.writeFile "/tmp/python_repl1/script.py" "print('hello')" 0o644,
        SysCall.command "docker"
          ["run", "--rm", "-v", "/tmp/python_repl1:/app",
            "mcr.microsoft.com/playwright/python:v1.49.1-noble", "sh", "-c",
            "python app/script.py"],
        SysCall.removeAll "/tmp/python_repl1"] ∧
    shRun allSucceed "python app/script.py" = some [["python", "app/script.py"]] :=
  ⟨⟨⟨rfl, rfl, rfl, rfl⟩, by decide⟩,
    (staged_script_is_the_script_run (envWith (ProcessResult.exited 0 "hello\n" ""))
      (requestOf (GoAny.map [("code", GoAny.string "print('hello')")])) emptyWorld
      [("code", GoAny.string "print('hello')")] "print('hello')" "/tmp/python_repl1"
      ⟨rfl, rfl, rfl, rfl⟩ (by decide)).1,
    (staged_script_is_the_script_run (envWith (ProcessResult.exited 0 "hello\n" ""))
      (requestOf (GoAny.map [("code", GoAny.string "print('hello')")])) emptyWorld
      [("code", GoAny.string "print('hello')")] "print('hello')" "/tmp/python_repl1"
      ⟨rfl, rfl, rfl, rfl⟩ (by decide)).2.2.2.1 allSucceed⟩

end PythonExec
